import Mathlib

/-!
Verification of the live statistics aggregation and bounded-history display
loop of a ping CLI (`pong.py`).  Python floats appearing in the program are
modelled as `WithTop ℚ` (the program uses `float('inf')` as the initial
`rtt_min`); numeric string rendering is modelled by Lean's rational printing
(`float('inf')` prints as `inf`, as in Python).  Wall-clock timestamps are
passed in as opaque strings, and the network prober is an input stream of
optional responses.
-/

namespace Pong

/-- Python floats as used by the program: a finite rational or `float('inf')`. -/
abbrev PyFloat := WithTop ℚ

/-- String rendering of a `PyFloat` (`float('inf')` renders as `"inf"`). -/
def pyStr (q : PyFloat) : String :=
  match q with
  | none => "inf"
  | some x => toString x

/-- Classification bucket derived by comparing a value against two thresholds. -/
inductive Tier where
  | good : Tier
  | warn : Tier
  | bad : Tier
deriving DecidableEq

/-- The color name the program uses for each tier. -/
def tier_color : Tier → String
  | .good => "green"
  | .warn => "yellow"
  | .bad => "red"

/-- The tier selected by `format_color`'s branch structure:
`value < thresholds[0]` is good, otherwise `value < thresholds[1]` is warn,
otherwise bad. -/
def colorTier (value : PyFloat) (thresholds : List ℚ) : Tier :=
  if value < (thresholds.getD 0 0 : ℚ) then .good
  else if value < (thresholds.getD 1 0 : ℚ) then .warn
  else .bad

/-- `format_color(value, thresholds, append)` from the source: wraps the value
and suffix in the color markup of its tier. -/
def format_color (value : PyFloat) (thresholds : List ℚ) (app : String) : String :=
  if value < (thresholds.getD 0 0 : ℚ) then
    "[green]" ++ pyStr value ++ app ++ "[/green]"
  else if value < (thresholds.getD 1 0 : ℚ) then
    "[yellow]" ++ pyStr value ++ app ++ "[/yellow]"
  else
    "[red]" ++ pyStr value ++ app ++ "[/red]"

/-- `format_rtt(rtt)` from the source: color an RTT with thresholds `[50, 100]`
and unit suffix `"ms"`. -/
def format_rtt (rtt : PyFloat) : String :=
  format_color rtt [50, 100] "ms"

/-- One response from the prober library: a success flag and the elapsed
round-trip time in milliseconds (meaningful on success). -/
structure Response where
  success : Bool
  time_elapsed_ms : ℚ
deriving DecidableEq

/-- `create_ping_output(response, host, size)` from the source; `now` is the
`datetime.now().strftime` timestamp taken when the response is processed. -/
def create_ping_output (response : Response) (host : String) (size : ℕ)
    (now : String) : String :=
  if response.success then
    now ++ " - Reply from " ++ host ++ ": bytes=" ++ toString size ++
      " time=" ++ format_rtt (response.time_elapsed_ms : PyFloat)
  else
    now ++ " - Request timed out"

/-- Python's `round` to an integer: round half to even (banker's rounding). -/
def roundHalfEven (q : ℚ) : ℤ :=
  let f := ⌊q⌋
  if q - f < 1 / 2 then f
  else if q - f > 1 / 2 then f + 1
  else if f % 2 = 0 then f else f + 1

/-- Python's `round(q, 2)`: round to two decimal places. -/
def round2 (q : ℚ) : ℚ :=
  (roundHalfEven (q * 100) : ℚ) / 100

/-- `construct_stats_panel` from the source, modelled as the list of
(stat, value) rows added to the table.  The average is rounded to two decimal
places before coloring; min and max are colored unrounded. -/
def construct_stats_panel (sent_packets received_packets : ℕ)
    (rtt_min : PyFloat) (rtt_max rtt_avg loss_percentage : ℚ) :
    List (String × String) :=
  let loss_text := format_color (loss_percentage : PyFloat) [10, 20] "%"
  let rtt_min_text := format_rtt rtt_min
  let rtt_max_text := format_rtt (rtt_max : PyFloat)
  let rtt_avg_text := format_rtt ((round2 rtt_avg : ℚ) : PyFloat)
  [("Sent", toString sent_packets),
   ("Received", toString received_packets),
   ("Loss", loss_text),
   ("RTT Min", rtt_min_text),
   ("RTT Max", rtt_max_text),
   ("RTT Avg", rtt_avg_text)]

/-- The mutable locals of `ping_cli`'s loop.  `stats` is `none` until the
first `stats = construct_stats_panel(...)` assignment executes, modelling the
Python local being unbound until then. -/
structure LoopState where
  sent_packets : ℕ
  received_packets : ℕ
  rtt_min : PyFloat
  rtt_max : ℚ
  rtt_sum : ℚ
  pings : List String
  stats : Option (List (String × String))
deriving DecidableEq

/-- The locals as initialized before the loop (`stats` not yet assigned). -/
def initState : LoopState :=
  { sent_packets := 0, received_packets := 0, rtt_min := ⊤, rtt_max := 0,
    rtt_sum := 0, pings := [], stats := none }

/-- `loss_percentage` as computed at line 158 of the source:
`(loss_count / sent_packets) * 100 if sent_packets > 0 else 0`. -/
def loss_percentage (st : LoopState) : ℚ :=
  if st.sent_packets > 0 then
    (((st.sent_packets : ℚ) - (st.received_packets : ℚ)) / (st.sent_packets : ℚ)) * 100
  else 0

/-- The average RTT as computed at line 163 of the source:
`rtt_sum / received_packets if received_packets > 0 else 0`. -/
def rtt_avg (st : LoopState) : ℚ :=
  if st.received_packets > 0 then st.rtt_sum / (st.received_packets : ℚ) else 0

/-- The input consumed by one loop iteration: the (optional) single response
yielded by `ping_host(host, 1, ...)` and the timestamp at which it is
processed. -/
structure IterInput where
  response : Option Response
  now : String

/-- One iteration of the `while` body (source lines 136-168): increment
`sent_packets`; if a response was yielded, append its formatted line and, on
success, update the aggregates; evict the oldest log line when the log
exceeds 20; recompute and assign `stats`. -/
def loopBody (host : String) (size : ℕ) (st : LoopState) (inp : IterInput) :
    LoopState :=
  let st := { st with sent_packets := st.sent_packets + 1 }
  let st :=
    match inp.response with
    | none => st
    | some response =>
      let st := { st with
        pings := st.pings ++ [create_ping_output response host size inp.now] }
      if response.success then
        let rtt := response.time_elapsed_ms
        { st with
          received_packets := st.received_packets + 1,
          rtt_sum := st.rtt_sum + rtt,
          rtt_min := min st.rtt_min (rtt : PyFloat),
          rtt_max := max st.rtt_max rtt }
      else st
  let st := if st.pings.length > 20 then { st with pings := st.pings.drop 1 } else st
  { st with
    stats := some (construct_stats_panel st.sent_packets st.received_packets
      st.rtt_min st.rtt_max (rtt_avg st) (loss_percentage st)) }

/-- The state of the locals after `n` completed iterations fed from the
input stream `inputs`. -/
def stateAfter (host : String) (size : ℕ) (inputs : ℕ → IterInput) :
    ℕ → LoopState
  | 0 => initState
  | n + 1 => loopBody host size (stateAfter host size inputs n) (inputs n)

/-- Reading the local `stats` after the loop (or in the interrupt handler):
if it was never assigned, Python raises `UnboundLocalError` instead of
printing a panel. -/
def final_render (st : LoopState) : Except String (List (String × String)) :=
  match st.stats with
  | some s => Except.ok s
  | none => Except.error "UnboundLocalError: stats"

/-- The `while infinite or sent_packets < count` loop with its
`if not infinite and sent_packets >= count: break` exit, run on fuel:
`some st` is the state at normal loop exit, `none` means the fuel was
exhausted with the loop still running. -/
def runLoop (host : String) (size : ℕ) (infinite : Bool) (count : ℤ)
    (inputs : ℕ → IterInput) : ℕ → ℕ → LoopState → Option LoopState
  | 0, _, _ => none
  | fuel + 1, idx, st =>
    if infinite = true ∨ (st.sent_packets : ℤ) < count then
      if infinite = false ∧
          ((loopBody host size st (inputs idx)).sent_packets : ℤ) ≥ count then
        some (loopBody host size st (inputs idx))
      else runLoop host size infinite count inputs fuel (idx + 1)
        (loopBody host size st (inputs idx))
    else some st

/-- The spec's four-probe scenario: succeed (10 ms), fail, succeed (30 ms),
fail. -/
def scenarioInputs : ℕ → IterInput
  | 0 => ⟨some ⟨true, 10⟩, "t1"⟩
  | 1 => ⟨some ⟨false, 0⟩, "t2"⟩
  | 2 => ⟨some ⟨true, 30⟩, "t3"⟩
  | _ => ⟨some ⟨false, 0⟩, "t4"⟩

/-- The spec's interruption scenario: one success (15 ms), then failures. -/
def interruptInputs : ℕ → IterInput
  | 0 => ⟨some ⟨true, 15⟩, "t1"⟩
  | _ => ⟨some ⟨false, 0⟩, "t2"⟩

/-- A prober that yields an empty result set on every invocation. -/
def timeoutInputs : ℕ → IterInput := fun _ => ⟨none, "t"⟩

/-- An input on which the iteration records a loss: either the prober yielded
nothing, or the response is a failure. -/
def FailedInput (inp : IterInput) : Prop :=
  ∀ r, inp.response = some r → r.success = false

theorem loopBody_sent_packets (host : String) (size : ℕ) (st : LoopState)
    (inp : IterInput) :
    (loopBody host size st inp).sent_packets = st.sent_packets + 1 := by
  rcases inp with ⟨resp, now⟩
  unfold loopBody
  cases resp <;> dsimp only <;> split_ifs <;> rfl

theorem loopBody_stats (host : String) (size : ℕ) (st : LoopState)
    (inp : IterInput) :
    (loopBody host size st inp).stats =
      some (construct_stats_panel (loopBody host size st inp).sent_packets
        (loopBody host size st inp).received_packets
        (loopBody host size st inp).rtt_min (loopBody host size st inp).rtt_max
        (rtt_avg (loopBody host size st inp))
        (loss_percentage (loopBody host size st inp))) := by
  rcases inp with ⟨resp, now⟩
  unfold loopBody rtt_avg loss_percentage
  cases resp <;> dsimp only <;> split_ifs <;> rfl

theorem loopBody_none (host : String) (size : ℕ) (st : LoopState)
    (now : String) :
    (loopBody host size st ⟨none, now⟩).received_packets = st.received_packets ∧
    (loopBody host size st ⟨none, now⟩).rtt_min = st.rtt_min ∧
    (loopBody host size st ⟨none, now⟩).rtt_max = st.rtt_max ∧
    (loopBody host size st ⟨none, now⟩).rtt_sum = st.rtt_sum ∧
    (loopBody host size st ⟨none, now⟩).pings =
      (if st.pings.length > 20 then st.pings.drop 1 else st.pings) := by
  unfold loopBody
  dsimp only
  split_ifs <;> simp_all

theorem loopBody_success (host : String) (size : ℕ) (st : LoopState)
    (r : Response) (now : String) (hs : r.success = true) :
    (loopBody host size st ⟨some r, now⟩).received_packets = st.received_packets + 1 ∧
    (loopBody host size st ⟨some r, now⟩).rtt_min = min st.rtt_min (r.time_elapsed_ms : PyFloat) ∧
    (loopBody host size st ⟨some r, now⟩).rtt_max = max st.rtt_max r.time_elapsed_ms ∧
    (loopBody host size st ⟨some r, now⟩).rtt_sum = st.rtt_sum + r.time_elapsed_ms ∧
    (loopBody host size st ⟨some r, now⟩).pings =
      (if (st.pings ++ [create_ping_output r host size now]).length > 20 then
        (st.pings ++ [create_ping_output r host size now]).drop 1
       else st.pings ++ [create_ping_output r host size now]) := by
  unfold loopBody
  dsimp only
  rw [if_pos hs]
  dsimp only
  split_ifs <;> simp_all

theorem loopBody_failure (host : String) (size : ℕ) (st : LoopState)
    (r : Response) (now : String) (hs : r.success = false) :
    (loopBody host size st ⟨some r, now⟩).received_packets = st.received_packets ∧
    (loopBody host size st ⟨some r, now⟩).rtt_min = st.rtt_min ∧
    (loopBody host size st ⟨some r, now⟩).rtt_max = st.rtt_max ∧
    (loopBody host size st ⟨some r, now⟩).rtt_sum = st.rtt_sum ∧
    (loopBody host size st ⟨some r, now⟩).pings =
      (if (st.pings ++ [create_ping_output r host size now]).length > 20 then
        (st.pings ++ [create_ping_output r host size now]).drop 1
       else st.pings ++ [create_ping_output r host size now]) := by
  unfold loopBody
  dsimp only
  split_ifs <;> first
    | exact ⟨rfl, rfl, rfl, rfl, rfl⟩
    | simp_all

theorem loopBody_pings_some (host : String) (size : ℕ) (st : LoopState)
    (r : Response) (now : String) :
    (loopBody host size st ⟨some r, now⟩).pings =
      (if (st.pings ++ [create_ping_output r host size now]).length > 20 then
        (st.pings ++ [create_ping_output r host size now]).drop 1
       else st.pings ++ [create_ping_output r host size now]) := by
  cases hr : r.success
  · exact (loopBody_failure host size st r now hr).2.2.2.2
  · exact (loopBody_success host size st r now hr).2.2.2.2

theorem stateAfter_sent (host : String) (size : ℕ) (inputs : ℕ → IterInput)
    (n : ℕ) : (stateAfter host size inputs n).sent_packets = n := by
  induction n with
  | zero => rfl
  | succ k ih => simp [stateAfter, loopBody_sent_packets, ih]

theorem loopBody_pings_length_le (host : String) (size : ℕ) (st : LoopState)
    (inp : IterInput) (h : st.pings.length ≤ 20) :
    (loopBody host size st inp).pings.length ≤ 20 := by
  rcases inp with ⟨resp, now⟩
  cases resp with
  | none =>
    rw [(loopBody_none host size st now).2.2.2.2, if_neg (by omega)]
    exact h
  | some r =>
    rw [loopBody_pings_some host size st r now]
    split_ifs with hc <;>
      simp only [List.length_drop, List.length_append, List.length_singleton] <;>
      simp only [List.length_append, List.length_singleton] at hc <;> omega

theorem stateAfter_pings_length_le (host : String) (size : ℕ)
    (inputs : ℕ → IterInput) (n : ℕ) :
    (stateAfter host size inputs n).pings.length ≤ 20 := by
  induction n with
  | zero => simp [stateAfter, initState]
  | succ k ih => exact loopBody_pings_length_le host size _ _ ih

theorem loopBody_received_le_sent (host : String) (size : ℕ) (st : LoopState)
    (inp : IterInput) (h : st.received_packets ≤ st.sent_packets) :
    (loopBody host size st inp).received_packets ≤
      (loopBody host size st inp).sent_packets := by
  rw [loopBody_sent_packets]
  rcases inp with ⟨resp, now⟩
  cases resp with
  | none => rw [(loopBody_none host size st now).1]; omega
  | some r =>
    cases hr : r.success
    · rw [(loopBody_failure host size st r now hr).1]; omega
    · rw [(loopBody_success host size st r now hr).1]; omega

theorem loopBody_min_le_max (host : String) (size : ℕ) (st : LoopState)
    (inp : IterInput)
    (h : 0 < st.received_packets → st.rtt_min ≤ (st.rtt_max : PyFloat)) :
    0 < (loopBody host size st inp).received_packets →
      (loopBody host size st inp).rtt_min ≤
        ((loopBody host size st inp).rtt_max : PyFloat) := by
  rcases inp with ⟨resp, now⟩
  cases resp with
  | none =>
    rcases loopBody_none host size st now with ⟨h1, h2, h3, _, _⟩
    rw [h1, h2, h3]; exact h
  | some r =>
    cases hr : r.success
    · rcases loopBody_failure host size st r now hr with ⟨h1, h2, h3, _, _⟩
      rw [h1, h2, h3]; exact h
    · rcases loopBody_success host size st r now hr with ⟨h1, h2, h3, _, _⟩
      rw [h1, h2, h3]
      intro _
      calc min st.rtt_min (r.time_elapsed_ms : PyFloat)
          ≤ (r.time_elapsed_ms : PyFloat) := min_le_right _ _
        _ ≤ ((max st.rtt_max r.time_elapsed_ms : ℚ) : PyFloat) := by
            rw [WithTop.coe_max]; exact le_max_right _ _

theorem loopBody_failed_input (host : String) (size : ℕ) (st : LoopState)
    (inp : IterInput) (hf : FailedInput inp) :
    (loopBody host size st inp).received_packets = st.received_packets ∧
    (loopBody host size st inp).rtt_min = st.rtt_min := by
  rcases inp with ⟨resp, now⟩
  cases resp with
  | none => exact ⟨(loopBody_none host size st now).1, (loopBody_none host size st now).2.1⟩
  | some r =>
    have hr : r.success = false := hf r rfl
    exact ⟨(loopBody_failure host size st r now hr).1,
      (loopBody_failure host size st r now hr).2.1⟩

theorem stateAfter_all_failed (host : String) (size : ℕ)
    (inputs : ℕ → IterInput) (n : ℕ) (hf : ∀ k, k < n → FailedInput (inputs k)) :
    (stateAfter host size inputs n).received_packets = 0 ∧
    (stateAfter host size inputs n).rtt_min = ⊤ := by
  induction n with
  | zero => exact ⟨rfl, rfl⟩
  | succ k ih =>
    have ih' := ih (fun j hj => hf j (Nat.lt_succ_of_lt hj))
    have hstep := loopBody_failed_input host size (stateAfter host size inputs k)
      (inputs k) (hf k (Nat.lt_succ_self k))
    exact ⟨by rw [stateAfter, hstep.1, ih'.1], by rw [stateAfter, hstep.2, ih'.2]⟩

theorem colorTier_good_iff (v : PyFloat) (t0 t1 : ℚ) :
    colorTier v [t0, t1] = Tier.good ↔ v < (t0 : ℚ) := by
  unfold colorTier
  simp only [List.getD_cons_zero, List.getD_cons_succ]
  split_ifs with h1 h2
  · exact iff_of_true rfl h1
  · exact iff_of_false (by decide) h1
  · exact iff_of_false (by decide) h1

theorem colorTier_warn_iff (v : PyFloat) (t0 t1 : ℚ) :
    colorTier v [t0, t1] = Tier.warn ↔ ((t0 : ℚ) : PyFloat) ≤ v ∧ v < (t1 : ℚ) := by
  unfold colorTier
  simp only [List.getD_cons_zero, List.getD_cons_succ]
  split_ifs with h1 h2
  · exact iff_of_false (by decide) (fun h => absurd h1 (not_lt.mpr h.1))
  · exact iff_of_true rfl ⟨le_of_not_lt h1, h2⟩
  · exact iff_of_false (by decide) (fun h => h2 h.2)

theorem colorTier_bad_iff (v : PyFloat) (t0 t1 : ℚ) (h01 : t0 ≤ t1) :
    colorTier v [t0, t1] = Tier.bad ↔ ((t1 : ℚ) : PyFloat) ≤ v := by
  unfold colorTier
  simp only [List.getD_cons_zero, List.getD_cons_succ]
  split_ifs with h1 h2
  · refine iff_of_false (by decide) (fun hb => ?_)
    exact absurd (hb.trans_lt h1) (not_lt.mpr (WithTop.coe_le_coe.mpr h01))
  · exact iff_of_false (by decide) (fun hb => absurd h2 (not_lt.mpr hb))
  · exact iff_of_true rfl (le_of_not_lt h2)

theorem format_color_good (v : PyFloat) (th : List ℚ) (app : String)
    (h : colorTier v th = Tier.good) :
    format_color v th app = "[green]" ++ pyStr v ++ app ++ "[/green]" := by
  unfold format_color
  unfold colorTier at h
  split_ifs at h ⊢ <;> first | rfl | exact absurd h (by decide)

theorem format_color_warn (v : PyFloat) (th : List ℚ) (app : String)
    (h : colorTier v th = Tier.warn) :
    format_color v th app = "[yellow]" ++ pyStr v ++ app ++ "[/yellow]" := by
  unfold format_color
  unfold colorTier at h
  split_ifs at h ⊢ <;> first | rfl | exact absurd h (by decide)

theorem format_color_bad (v : PyFloat) (th : List ℚ) (app : String)
    (h : colorTier v th = Tier.bad) :
    format_color v th app = "[red]" ++ pyStr v ++ app ++ "[/red]" := by
  unfold format_color
  unfold colorTier at h
  split_ifs at h ⊢ <;> first | rfl | exact absurd h (by decide)

theorem roundHalfEven_abs (x : ℚ) : |(roundHalfEven x : ℚ) - x| ≤ 1 / 2 := by
  have h1 : ((⌊x⌋ : ℤ) : ℚ) ≤ x := Int.floor_le x
  have h2 : x < (⌊x⌋ : ℚ) + 1 := Int.lt_floor_add_one x
  unfold roundHalfEven
  dsimp only
  split_ifs with ha hb hc <;> rw [abs_le] <;> constructor <;> push_cast <;>
    linarith

theorem round2_abs (q : ℚ) : |round2 q - q| ≤ 1 / 200 := by
  have h := roundHalfEven_abs (q * 100)
  unfold round2
  have heq : ((roundHalfEven (q * 100) : ℚ)) / 100 - q =
      ((roundHalfEven (q * 100) : ℚ) - q * 100) / 100 := by ring
  rw [heq, abs_div, abs_of_pos (by norm_num : (0:ℚ) < 100),
    div_le_iff (by norm_num : (0:ℚ) < 100)]
  linarith

/-- C1: recording a probe outcome unconditionally increments `sent_packets`;
exactly on success it increments `received_packets`, adds the elapsed time to
`rtt_sum` and updates `rtt_min`/`rtt_max` by min/max; for the four-probe
scenario succeed(10)/fail/succeed(30)/fail the final state has sent=4,
received=2, rttMin=10, rttMax=30, rttAvg=20 and lossPct=50. -/
theorem record_semantics (host : String) (size : ℕ) (st : LoopState)
    (r : Response) (now : String) :
    ((loopBody host size st ⟨some r, now⟩).sent_packets = st.sent_packets + 1) ∧
    (r.success = true →
      (loopBody host size st ⟨some r, now⟩).received_packets = st.received_packets + 1 ∧
      (loopBody host size st ⟨some r, now⟩).rtt_sum = st.rtt_sum + r.time_elapsed_ms ∧
      (loopBody host size st ⟨some r, now⟩).rtt_min = min st.rtt_min (r.time_elapsed_ms : PyFloat) ∧
      (loopBody host size st ⟨some r, now⟩).rtt_max = max st.rtt_max r.time_elapsed_ms) ∧
    (r.success = false →
      (loopBody host size st ⟨some r, now⟩).received_packets = st.received_packets ∧
      (loopBody host size st ⟨some r, now⟩).rtt_sum = st.rtt_sum ∧
      (loopBody host size st ⟨some r, now⟩).rtt_min = st.rtt_min ∧
      (loopBody host size st ⟨some r, now⟩).rtt_max = st.rtt_max) ∧
    ((stateAfter host size scenarioInputs 4).sent_packets = 4 ∧
     (stateAfter host size scenarioInputs 4).received_packets = 2 ∧
     (stateAfter host size scenarioInputs 4).rtt_min = ((10 : ℚ) : PyFloat) ∧
     (stateAfter host size scenarioInputs 4).rtt_max = 30 ∧
     rtt_avg (stateAfter host size scenarioInputs 4) = 20 ∧
     loss_percentage (stateAfter host size scenarioInputs 4) = 50) := by
  refine ⟨loopBody_sent_packets host size st _, ?_, ?_, rfl, rfl, rfl, rfl, ?_, ?_⟩
  · intro hs
    obtain ⟨h1, h2, h3, h4, _⟩ := loopBody_success host size st r now hs
    exact ⟨h1, h4, h2, h3⟩
  · intro hs
    obtain ⟨h1, h2, h3, h4, _⟩ := loopBody_failure host size st r now hs
    exact ⟨h1, h4, h2, h3⟩
  · have hrec : (stateAfter host size scenarioInputs 4).received_packets = 2 := rfl
    have hsum : (stateAfter host size scenarioInputs 4).rtt_sum = 0 + 10 + 30 := rfl
    rw [rtt_avg, hrec, hsum]
    norm_num
  · have hrec : (stateAfter host size scenarioInputs 4).received_packets = 2 := rfl
    have hsent : (stateAfter host size scenarioInputs 4).sent_packets = 4 := rfl
    rw [loss_percentage, hrec, hsent]
    norm_num

/-- C1 witness: the theorem applied to a concrete success outcome. -/
theorem record_semantics_witness :
    (⟨true, (10 : ℚ)⟩ : Response).success = true ∧
    (loopBody "example.com" 56 initState ⟨some ⟨true, 10⟩, "t"⟩).received_packets =
      initState.received_packets + 1 :=
  ⟨rfl, ((record_semantics "example.com" 56 initState ⟨true, 10⟩ "t").2.1 rfl).1⟩

/-- C2: the derived loss percentage is `(sent - received) / sent * 100` and 0
when `sent = 0`; the derived average RTT is `rtt_sum / received` and 0 when
`received = 0`; after a run of N ≥ 1 failures `rtt_min` is still `+∞`, its
display is the well-defined string `[red]infms[/red]`, and the loss
percentage is 100. -/
theorem derived_stats_safe :
    (∀ st : LoopState, st.sent_packets = 0 → loss_percentage st = 0) ∧
    (∀ st : LoopState, 0 < st.sent_packets →
      loss_percentage st =
        (((st.sent_packets : ℚ) - (st.received_packets : ℚ)) / (st.sent_packets : ℚ)) * 100) ∧
    (∀ st : LoopState, st.received_packets = 0 → rtt_avg st = 0) ∧
    (∀ st : LoopState, 0 < st.received_packets →
      rtt_avg st = st.rtt_sum / (st.received_packets : ℚ)) ∧
    (∀ (host : String) (size : ℕ) (inputs : ℕ → IterInput) (n : ℕ), 1 ≤ n →
      (∀ k, k < n → FailedInput (inputs k)) →
      (stateAfter host size inputs n).rtt_min = ⊤ ∧
      format_rtt (stateAfter host size inputs n).rtt_min = "[red]infms[/red]" ∧
      loss_percentage (stateAfter host size inputs n) = 100) := by
  refine ⟨?_, ?_, ?_, ?_, ?_⟩
  · intro st h; rw [loss_percentage, if_neg (by omega)]
  · intro st h; rw [loss_percentage, if_pos h]
  · intro st h; rw [rtt_avg, if_neg (by omega)]
  · intro st h; rw [rtt_avg, if_pos h]
  · intro host size inputs n hn hf
    obtain ⟨hrec, hmin⟩ := stateAfter_all_failed host size inputs n hf
    have hsent := stateAfter_sent host size inputs n
    refine ⟨hmin, by rw [hmin]; rfl, ?_⟩
    rw [loss_percentage, hsent, hrec, if_pos (by omega)]
    have hne : (n : ℚ) ≠ 0 := Nat.cast_ne_zero.mpr (by omega)
    push_cast
    rw [sub_zero, div_self hne, one_mul]

/-- C2 witness: the theorem's failure-run clause at one all-timeout probe. -/
theorem derived_stats_safe_witness :
    1 ≤ 1 ∧
    ((stateAfter "example.com" 56 timeoutInputs 1).rtt_min = ⊤ ∧
     format_rtt (stateAfter "example.com" 56 timeoutInputs 1).rtt_min = "[red]infms[/red]" ∧
     loss_percentage (stateAfter "example.com" 56 timeoutInputs 1) = 100) :=
  ⟨le_refl 1, derived_stats_safe.2.2.2.2 "example.com" 56 timeoutInputs 1 (le_refl 1)
    (fun _ _ _ hr => Option.noConfusion hr)⟩

/-- C3: the rolling log never exceeds 20 lines — at every reachable state and
across any single iteration — and appending a 21st line evicts exactly the
element at index 0, keeping the order of the remaining lines and placing the
new line at the end. -/
theorem rolling_log_fifo :
    (∀ (host : String) (size : ℕ) (inputs : ℕ → IterInput) (n : ℕ),
      (stateAfter host size inputs n).pings.length ≤ 20) ∧
    (∀ (host : String) (size : ℕ) (st : LoopState) (inp : IterInput),
      st.pings.length ≤ 20 → (loopBody host size st inp).pings.length ≤ 20) ∧
    (∀ (host : String) (size : ℕ) (st : LoopState) (r : Response) (now : String),
      st.pings.length = 20 →
      (loopBody host size st ⟨some r, now⟩).pings =
        st.pings.drop 1 ++ [create_ping_output r host size now]) := by
  refine ⟨stateAfter_pings_length_le, loopBody_pings_length_le, ?_⟩
  intro host size st r now h20
  rw [loopBody_pings_some, if_pos (by simp [h20]),
    List.drop_append_of_le_length (by omega)]

/-- C3 witness: appending the 21st line to a full log of 20 lines. -/
theorem rolling_log_fifo_witness :
    (List.replicate 20 "x").length = 20 ∧
    (loopBody "example.com" 56 { initState with pings := List.replicate 20 "x" }
        ⟨some ⟨false, 0⟩, "t"⟩).pings =
      (List.replicate 20 "x").drop 1 ++ [create_ping_output ⟨false, 0⟩ "example.com" 56 "t"] :=
  ⟨by simp, rolling_log_fifo.2.2 "example.com" 56 _ ⟨false, 0⟩ "t" (by simp)⟩

/-- C4: for any sequence of recorded outcomes with nonnegative elapsed times,
after every iteration `received ≤ sent`, and once `received > 0` the running
minimum RTT is at most the running maximum RTT. -/
theorem aggregator_invariants (host : String) (size : ℕ)
    (inputs : ℕ → IterInput)
    (hpos : ∀ k r, (inputs k).response = some r → 0 ≤ r.time_elapsed_ms)
    (n : ℕ) :
    (stateAfter host size inputs n).received_packets ≤
      (stateAfter host size inputs n).sent_packets ∧
    (0 < (stateAfter host size inputs n).received_packets →
      (stateAfter host size inputs n).rtt_min ≤
        ((stateAfter host size inputs n).rtt_max : PyFloat)) := by
  induction n with
  | zero => exact ⟨le_refl 0, fun h => absurd h (lt_irrefl 0)⟩
  | succ k ih =>
    exact ⟨loopBody_received_le_sent host size _ _ ih.1,
      loopBody_min_le_max host size _ _ ih.2⟩

/-- C4 witness: the invariants at the concrete four-probe scenario. -/
theorem aggregator_invariants_witness :
    (stateAfter "example.com" 56 scenarioInputs 4).received_packets ≤
      (stateAfter "example.com" 56 scenarioInputs 4).sent_packets ∧
    (0 < (stateAfter "example.com" 56 scenarioInputs 4).received_packets →
      (stateAfter "example.com" 56 scenarioInputs 4).rtt_min ≤
        ((stateAfter "example.com" 56 scenarioInputs 4).rtt_max : PyFloat)) :=
  aggregator_invariants "example.com" 56 scenarioInputs
    (by
      intro k r hr
      rcases k with _ | _ | _ | k <;>
        simp only [scenarioInputs, Option.some.injEq] at hr <;>
        cases hr <;> norm_num)
    4

/-- C5 counterexample: an iteration in which the prober yields an empty
result set increments `sent_packets` (a sent-and-lost probe) but appends no
log line at all — the rolling log stays empty, refuting the claim that every
iteration produces an appended log line. -/
theorem zero_result_no_log_line :
    (loopBody "example.com" 56 initState ⟨none, "00:00:00"⟩).sent_packets = 1 ∧
    (loopBody "example.com" 56 initState ⟨none, "00:00:00"⟩).received_packets = 0 ∧
    (loopBody "example.com" 56 initState ⟨none, "00:00:00"⟩).pings = [] :=
  ⟨rfl, rfl, rfl⟩

/-- C5 (amended): every iteration counts as a sent probe, a zero-result
iteration counts as lost (received unchanged) and leaves the rolling log
unchanged — no log line is appended — while an iteration with an outcome
appends its formatted line at the end of the log. -/
theorem iteration_log_semantics (host : String) (size : ℕ) (st : LoopState)
    (inp : IterInput) :
    ((loopBody host size st inp).sent_packets = st.sent_packets + 1) ∧
    (inp.response = none →
      (loopBody host size st inp).received_packets = st.received_packets ∧
      (st.pings.length ≤ 20 → (loopBody host size st inp).pings = st.pings)) ∧
    (∀ r, inp.response = some r →
      (loopBody host size st inp).pings.getLast? =
        some (create_ping_output r host size inp.now)) := by
  refine ⟨loopBody_sent_packets host size st inp, ?_, ?_⟩
  · rcases inp with ⟨resp, now⟩
    intro hn
    cases hn
    refine ⟨(loopBody_none host size st now).1, ?_⟩
    intro h20
    rw [(loopBody_none host size st now).2.2.2.2, if_neg (by omega)]
  · rcases inp with ⟨resp, now⟩
    intro r hr
    cases hr
    rw [loopBody_pings_some]
    split_ifs with hc
    · rw [List.drop_append_of_le_length
        (by simp only [List.length_append, List.length_singleton] at hc; omega)]
      exact List.getLast?_concat _
    · exact List.getLast?_concat _

/-- C5 witness: the amended theorem applied to an iteration with an outcome
and to a zero-result iteration. -/
theorem iteration_log_semantics_witness :
    (loopBody "example.com" 56 initState ⟨some ⟨true, 5⟩, "t"⟩).pings.getLast? =
      some (create_ping_output ⟨true, 5⟩ "example.com" 56 "t") ∧
    (loopBody "example.com" 56 initState ⟨none, "t"⟩).received_packets =
      initState.received_packets :=
  ⟨(iteration_log_semantics "example.com" 56 initState ⟨some ⟨true, 5⟩, "t"⟩).2.2
      ⟨true, 5⟩ rfl,
   ((iteration_log_semantics "example.com" 56 initState ⟨none, "t"⟩).2.1 rfl).1⟩

/-- C6: the coloring maps a value to good exactly when it is below the low
threshold, to warn exactly when it is between the thresholds, and to bad
exactly when it is at or above the high threshold, with thresholds `[50, 100]`
for RTT and `[10, 20]` for loss; `format_color` emits the markup of that tier;
and the spec's sample points land in the stated tiers. -/
theorem color_tiers :
    (∀ v : PyFloat, colorTier v [50, 100] = Tier.good ↔ v < ((50 : ℚ) : PyFloat)) ∧
    (∀ v : PyFloat, colorTier v [50, 100] = Tier.warn ↔
      ((50 : ℚ) : PyFloat) ≤ v ∧ v < ((100 : ℚ) : PyFloat)) ∧
    (∀ v : PyFloat, colorTier v [50, 100] = Tier.bad ↔ ((100 : ℚ) : PyFloat) ≤ v) ∧
    (∀ v : PyFloat, colorTier v [10, 20] = Tier.good ↔ v < ((10 : ℚ) : PyFloat)) ∧
    (∀ v : PyFloat, colorTier v [10, 20] = Tier.warn ↔
      ((10 : ℚ) : PyFloat) ≤ v ∧ v < ((20 : ℚ) : PyFloat)) ∧
    (∀ v : PyFloat, colorTier v [10, 20] = Tier.bad ↔ ((20 : ℚ) : PyFloat) ≤ v) ∧
    (∀ (v : PyFloat) (th : List ℚ) (app : String),
      (colorTier v th = Tier.good →
        format_color v th app = "[green]" ++ pyStr v ++ app ++ "[/green]") ∧
      (colorTier v th = Tier.warn →
        format_color v th app = "[yellow]" ++ pyStr v ++ app ++ "[/yellow]") ∧
      (colorTier v th = Tier.bad →
        format_color v th app = "[red]" ++ pyStr v ++ app ++ "[/red]")) ∧
    colorTier ((49 : ℚ) : PyFloat) [50, 100] = Tier.good ∧
    colorTier ((50 : ℚ) : PyFloat) [50, 100] = Tier.warn ∧
    colorTier ((99 : ℚ) : PyFloat) [50, 100] = Tier.warn ∧
    colorTier ((100 : ℚ) : PyFloat) [50, 100] = Tier.bad ∧
    colorTier ((9 : ℚ) : PyFloat) [10, 20] = Tier.good ∧
    colorTier ((10 : ℚ) : PyFloat) [10, 20] = Tier.warn ∧
    colorTier ((25 : ℚ) : PyFloat) [10, 20] = Tier.bad := by
  refine ⟨fun v => colorTier_good_iff v 50 100,
    fun v => colorTier_warn_iff v 50 100,
    fun v => colorTier_bad_iff v 50 100 (by norm_num),
    fun v => colorTier_good_iff v 10 20,
    fun v => colorTier_warn_iff v 10 20,
    fun v => colorTier_bad_iff v 10 20 (by norm_num),
    fun v th app => ⟨format_color_good v th app, format_color_warn v th app,
      format_color_bad v th app⟩,
    by decide, by decide, by decide, by decide, by decide, by decide, by decide⟩

/-- C6 witness: the markup clause applied at a concrete good-tier value. -/
theorem color_tiers_witness :
    colorTier ((49 : ℚ) : PyFloat) [50, 100] = Tier.good ∧
    format_color ((49 : ℚ) : PyFloat) [50, 100] "ms" =
      "[green]" ++ pyStr ((49 : ℚ) : PyFloat) ++ "ms" ++ "[/green]" :=
  ⟨by decide,
   (color_tiers.2.2.2.2.2.2.1 ((49 : ℚ) : PyFloat) [50, 100] "ms").1 (by decide)⟩

/-- C7: a successful probe produces exactly the line
`<now> - Reply from <host>: bytes=<size> time=<colorizedRtt>` and a failed
probe exactly `<now> - Request timed out`; in the stats panel the RTT min and
max rows are colored unrounded while the RTT avg row is rounded to two
decimal places first — `round2` lands on a multiple of 1/100 within 1/200 of
the input. -/
theorem log_line_format :
    (∀ (r : Response) (host : String) (size : ℕ) (now : String),
      r.success = true →
      create_ping_output r host size now =
        now ++ " - Reply from " ++ host ++ ": bytes=" ++ toString size ++
          " time=" ++ format_rtt (r.time_elapsed_ms : PyFloat)) ∧
    (∀ (r : Response) (host : String) (size : ℕ) (now : String),
      r.success = false →
      create_ping_output r host size now = now ++ " - Request timed out") ∧
    (create_ping_output ⟨true, 42⟩ "example.com" 56 "12:00:00" =
      "12:00:00 - Reply from example.com: bytes=56 time=[green]42ms[/green]") ∧
    (create_ping_output ⟨false, 0⟩ "example.com" 56 "12:00:00" =
      "12:00:00 - Request timed out") ∧
    (∀ (sent recv : ℕ) (mn : PyFloat) (mx avg loss : ℚ),
      (construct_stats_panel sent recv mn mx avg loss).getD 3 ("", "") =
        ("RTT Min", format_rtt mn) ∧
      (construct_stats_panel sent recv mn mx avg loss).getD 4 ("", "") =
        ("RTT Max", format_rtt (mx : PyFloat)) ∧
      (construct_stats_panel sent recv mn mx avg loss).getD 5 ("", "") =
        ("RTT Avg", format_rtt ((round2 avg : ℚ) : PyFloat))) ∧
    (∀ q : ℚ, ∃ z : ℤ, round2 q = (z : ℚ) / 100) ∧
    (∀ q : ℚ, |round2 q - q| ≤ 1 / 200) := by
  refine ⟨?_, ?_, rfl, rfl, fun sent recv mn mx avg loss => ⟨rfl, rfl, rfl⟩,
    fun q => ⟨roundHalfEven (q * 100), rfl⟩, round2_abs⟩
  · intro r host size now hs
    rw [create_ping_output, if_pos hs]
  · intro r host size now hs
    rw [create_ping_output, if_neg (by rw [hs]; exact Bool.false_ne_true)]

/-- C7 witness: the success clause applied to a concrete response. -/
theorem log_line_format_witness :
    (⟨true, (42 : ℚ)⟩ : Response).success = true ∧
    create_ping_output ⟨true, 42⟩ "example.com" 56 "12:00:00" =
      "12:00:00" ++ " - Reply from " ++ "example.com" ++ ": bytes=" ++
        toString 56 ++ " time=" ++ format_rtt ((42 : ℚ) : PyFloat) :=
  ⟨rfl, log_line_format.1 ⟨true, 42⟩ "example.com" 56 "12:00:00" rfl⟩

/-- C8: an interruption arriving before the first iteration has constructed
the stats panel reaches the handler with `stats` never assigned, so the
handler's final print raises `UnboundLocalError` instead of rendering a
panel; an interruption after two completed iterations (one success of 15 ms,
one failure) does render a final panel reflecting exactly those two recorded
outcomes (sent=2, received=1). -/
theorem interrupt_before_first_render_faults :
    final_render (stateAfter "example.com" 56 timeoutInputs 0) =
      Except.error "UnboundLocalError: stats" ∧
    (stateAfter "example.com" 56 interruptInputs 2).sent_packets = 2 ∧
    (stateAfter "example.com" 56 interruptInputs 2).received_packets = 1 ∧
    ∃ rows, final_render (stateAfter "example.com" 56 interruptInputs 2) =
      Except.ok rows :=
  ⟨rfl, rfl, rfl, ⟨_, rfl⟩⟩

theorem runLoop_terminates_aux (host : String) (size : ℕ) (count : ℤ)
    (inputs : ℕ → IterInput) :
    ∀ (fuel idx : ℕ) (st : LoopState), (st.sent_packets : ℤ) < count →
      count ≤ (st.sent_packets : ℤ) + (fuel : ℤ) →
      ∃ st', runLoop host size false count inputs fuel idx st = some st' ∧
        (st'.sent_packets : ℤ) = count ∧ st'.stats.isSome = true := by
  intro fuel
  induction fuel with
  | zero => intro idx st h1 h2; exact absurd h2 (by push_cast; omega)
  | succ f ih =>
    intro idx st h1 h2
    rw [runLoop, if_pos (Or.inr h1)]
    by_cases hge : ((loopBody host size st (inputs idx)).sent_packets : ℤ) ≥ count
    · rw [if_pos ⟨rfl, hge⟩]
      refine ⟨_, rfl, ?_, ?_⟩
      · rw [loopBody_sent_packets] at hge ⊢
        push_cast at hge ⊢
        omega
      · rw [loopBody_stats]
        rfl
    · rw [if_neg (fun hc => hge hc.2)]
      apply ih
      · omega
      · rw [loopBody_sent_packets]
        push_cast at h2 ⊢
        omega

/-- C9: with infinite mode off and `count ≥ 1` the loop terminates with
exactly `count` probes sent and a stats panel assigned for the standalone
final summary; with infinite mode on, no amount of fuel makes the loop exit
on its own — the count check can never end it. -/
theorem loop_termination :
    (∀ (host : String) (size : ℕ) (count : ℤ) (inputs : ℕ → IterInput),
      1 ≤ count →
      ∃ st, runLoop host size false count inputs count.toNat 0 initState = some st ∧
        (st.sent_packets : ℤ) = count ∧ st.stats.isSome = true) ∧
    (∀ (host : String) (size : ℕ) (count : ℤ) (inputs : ℕ → IterInput)
      (fuel idx : ℕ) (st : LoopState),
      runLoop host size true count inputs fuel idx st = none) := by
  constructor
  · intro host size count inputs hc
    apply runLoop_terminates_aux host size count inputs count.toNat 0 initState
    · show ((initState.sent_packets : ℕ) : ℤ) < count
      simp only [initState]
      omega
    · show count ≤ ((initState.sent_packets : ℕ) : ℤ) + (count.toNat : ℤ)
      simp only [initState]
      omega
  · intro host size count inputs fuel idx st
    induction fuel generalizing idx st with
    | zero => rfl
    | succ f ih =>
      rw [runLoop, if_pos (Or.inl rfl), if_neg (fun hc => Bool.noConfusion hc.1)]
      exact ih (idx + 1) _

/-- C9 witness: the terminating clause at count = 2 with an all-timeout
prober. -/
theorem loop_termination_witness :
    (1 : ℤ) ≤ 2 ∧
    ∃ st, runLoop "example.com" 56 false 2 timeoutInputs (Int.toNat 2) 0 initState =
        some st ∧ (st.sent_packets : ℤ) = 2 ∧ st.stats.isSome = true :=
  ⟨by omega, loop_termination.1 "example.com" 56 2 timeoutInputs (by omega)⟩

/-- C10: with infinite mode off and `count ≤ 0` the while condition is false
at once, the body never runs, and the post-loop print reads `stats` before
any assignment — the run faults with `UnboundLocalError` instead of rendering
a zeroed panel (the same read faults in the interrupt handler before the
first panel is constructed). -/
theorem nonpositive_count_unbound_stats :
    (∀ (host : String) (size : ℕ) (count : ℤ) (inputs : ℕ → IterInput)
      (fuel : ℕ), count ≤ 0 →
      runLoop host size false count inputs (fuel + 1) 0 initState =
        some initState) ∧
    final_render initState = Except.error "UnboundLocalError: stats" := by
  constructor
  · intro host size count inputs fuel hc
    rw [runLoop, if_neg ?_]
    rintro (h | h)
    · exact Bool.noConfusion h
    · revert h
      show ¬ ((initState.sent_packets : ℕ) : ℤ) < count
      simp only [initState]
      omega
  · rfl

/-- C10 witness: count = 0 exits at once with `stats` unassigned. -/
theorem nonpositive_count_unbound_stats_witness :
    (0 : ℤ) ≤ 0 ∧
    runLoop "example.com" 56 false 0 timeoutInputs 1 0 initState =
      some initState :=
  ⟨le_refl 0,
   nonpositive_count_unbound_stats.1 "example.com" 56 0 timeoutInputs 0 (le_refl 0)⟩

end Pong
